import Mathlib

/-!
Shallow embedding of `src/main.cpp` (vfxsnake/vk_tutorial_se), the
device / presentation negotiation of a Vulkan tutorial application:
physical-device selection (`pickPhysicalDevice`), queue-family
resolution (inline in `createLogicalDevice`), and swapchain parameter
negotiation (`chooseSwapSurfaceFormat`, `chooseSwapPresentMode`,
`chooseSwapExtent`, and the image-count computation inline in
`createSwapChain`).

Machine integers are modelled as `Nat`; the only place where the
32-bit representation matters is the `~0` sentinel in
`createLogicalDevice`, modelled explicitly as `UINT32_MAX = 2^32 - 1`
(the value the C++ expression `graphicsIndex_u32 ? ... : ~0` takes in
the unsigned common type).  Fallible procedures (C++ `throw`) are
modelled as `Except String` carrying the exception message.
-/

/-- `2^32 - 1`: the value of `~0` converted to `uint32_t`, and the
value of `std::numeric_limits<uint32_t>::max()` used as the
"undefined extent" sentinel in `chooseSwapExtent`. -/
def UINT32_MAX : Nat := 2 ^ 32 - 1

/-- One `vk::QueueFamilyProperties` entry, reduced to the two query
results the source reads: whether `queueFlags & eGraphics` is set, and
whether `getSurfaceSupportKHR` reports presentation support to the
application's surface for this family's index. -/
structure QueueFamily where
  graphics : Bool
  present : Bool
deriving DecidableEq, Repr

/-- `physicalDevice.getSurfaceSupportKHR i surface` for the modelled
family list.  For an out-of-range index the C++ call is a Vulkan
validation error with an unspecified result; we model it as `false`.
The only reachable out-of-range call is `i = fams.length` when no
family supports graphics, and there the final error check fires on
`graphicsIndex == size()` regardless of this call's result, so the
choice does not affect any observable outcome. -/
def surfaceSupport (fams : List QueueFamily) (i : Nat) : Bool :=
  match fams[i]? with
  | some f => f.present
  | none => false

/-- The queue-family resolution of `createLogicalDevice`
(src/main.cpp lines 348-400), transcribed exactly:

* `graphicsIndex` is `std::distance(begin, find_if(graphics))`,
  i.e. `List.findIdx` (equal to the length when no family qualifies);
* `presentIndex` is `graphicsIndex` when that family supports
  presentation, and otherwise `~0`, which in the ternary expression's
  unsigned common type is `UINT32_MAX`;
* the rescan block (first for a family supporting both roles, then for
  any family supporting presentation) is guarded by
  `presentIndex == queueFamilyProperties.size()`;
* finally the code throws when either index equals the family count,
  and otherwise the pair is used for the graphics and present queues. -/
def selectQueueFamilies (fams : List QueueFamily) : Except String (Nat × Nat) :=
  let graphicsIndex0 := fams.findIdx (fun qfp => qfp.graphics)
  let presentIndex0 : Nat :=
    if surfaceSupport fams graphicsIndex0 then graphicsIndex0 else UINT32_MAX
  let resolved : Nat × Nat :=
    if presentIndex0 = fams.length then
      match fams.findIdx? (fun qfp => qfp.graphics && qfp.present) with
      | some i => (i, i)
      | none =>
        match fams.findIdx? (fun qfp => qfp.present) with
        | some i => (graphicsIndex0, i)
        | none => (graphicsIndex0, presentIndex0)
    else (graphicsIndex0, presentIndex0)
  if resolved.1 = fams.length ∨ resolved.2 = fams.length then
    Except.error "could not find a queue for graphics or present -> Terminating"
  else
    Except.ok resolved

/-- One enumerated physical device, reduced to the query results
`pickPhysicalDevice` reads: `getProperties().apiVersion`, the
queue-family list, the enumerated device-extension names, and the two
feature bits pulled out of the `getFeatures2` structure chain. -/
structure DeviceCandidate where
  apiVersion : Nat
  queueFamilies : List QueueFamily
  extensions : List String
  dynamicRendering : Bool
  extendedDynamicState : Bool
deriving DecidableEq, Repr

/-- `VK_API_VERSION_1_3 = VK_MAKE_API_VERSION(0, 1, 3, 0)`. -/
def VK_API_VERSION_1_3 : Nat := 1 <<< 22 ||| 3 <<< 12

/-- The fixed `requiredDeviceExtension` member of the application
class: the expansions of `vk::KHRSwapchainExtensionName`,
`vk::KHRSpirv14ExtensionName`, `vk::KHRSynchronization2ExtensionName`
and `vk::KHRCreateRenderpass2ExtensionName`. -/
def requiredDeviceExtension : List String :=
  ["VK_KHR_swapchain", "VK_KHR_spirv_1_4",
   "VK_KHR_synchronization2", "VK_KHR_create_renderpass2"]

/-- The qualification predicate of the `find_if` lambda in
`pickPhysicalDevice` (src/main.cpp lines 280-332): API version at
least 1.3, some graphics-capable queue family, every required
extension name present by exact string comparison (`strcmp == 0`),
and both the dynamic-rendering and extended-dynamic-state feature
bits enabled. -/
def isDeviceSuitable (required : List String) (d : DeviceCandidate) : Bool :=
  decide (VK_API_VERSION_1_3 ≤ d.apiVersion) &&
  d.queueFamilies.any (fun qfp => qfp.graphics) &&
  required.all (fun r => d.extensions.any (fun e => e == r)) &&
  (d.dynamicRendering && d.extendedDynamicState)

/-- `pickPhysicalDevice` (src/main.cpp lines 275-343):
`std::ranges::find_if` over the enumerated devices with the
qualification predicate; the first qualifying device is kept, and if
the iterator is `end()` the code throws. -/
def pickPhysicalDevice (required : List String) (devices : List DeviceCandidate) :
    Except String DeviceCandidate :=
  match devices.find? (isDeviceSuitable required) with
  | some d => Except.ok d
  | none => Except.error "failed to find a suitable GPU!"

/-- A `vk::SurfaceFormatKHR`: a format / color-space pair.  Formats
and color spaces are modelled by their Vulkan enum values. -/
structure SurfaceFormatKHR where
  format : Nat
  colorSpace : Nat
deriving DecidableEq, Repr

/-- Value-initialized `vk::SurfaceFormatKHR`: `eUndefined` (0) and
`eSrgbNonlinear` (0). -/
instance : Inhabited SurfaceFormatKHR := ⟨⟨0, 0⟩⟩

/-- `VK_FORMAT_B8G8R8A8_SRGB`. -/
def eB8G8R8A8Srgb : Nat := 50

/-- `VK_FORMAT_R8G8B8A8_UNORM` (used only in concrete instances). -/
def eR8G8B8A8Unorm : Nat := 37

/-- `VK_COLOR_SPACE_SRGB_NONLINEAR_KHR`. -/
def eSrgbNonlinear : Nat := 0

/-- `VK_COLOR_SPACE_EXTENDED_SRGB_LINEAR_EXT` (used only in concrete
instances, as a linear color space distinct from `eSrgbNonlinear`). -/
def eExtendedSrgbLinearEXT : Nat := 1000104002

/-- `chooseSwapSurfaceFormat` (src/main.cpp lines 460-471):
`find_if` for an entry equal to (`eB8G8R8A8Srgb`, `eSrgbNonlinear`);
the function returns only the `vk::Format` — the found entry's format
on a hit, and `availableFormats[0].format` otherwise.  Indexing an
empty vector is undefined behaviour in C++; the model returns the
value-initialized default there (all claims assume a non-empty list,
as the surface-query contract guarantees). -/
def chooseSwapSurfaceFormat (availableFormats : List SurfaceFormatKHR) : Nat :=
  match availableFormats.find?
      (fun f => f.format == eB8G8R8A8Srgb && f.colorSpace == eSrgbNonlinear) with
  | some f => f.format
  | none => (availableFormats.getD 0 default).format

/-- The (format, colorSpace) pair actually used to create the
swapchain (src/main.cpp lines 435 and 442-447): the format comes from
`chooseSwapSurfaceFormat`, while `imageColorSpace` is hardcoded to
`vk::ColorSpaceKHR::eSrgbNonlinear` in `createSwapChain`. -/
def negotiateSurfaceFormatPair (availableFormats : List SurfaceFormatKHR) :
    SurfaceFormatKHR :=
  { format := chooseSwapSurfaceFormat availableFormats,
    colorSpace := eSrgbNonlinear }

/-- The `vk::PresentModeKHR` values. -/
inductive PresentModeKHR where
  | eImmediate
  | eMailbox
  | eFifo
  | eFifoRelaxed
deriving DecidableEq, Repr

/-- `chooseSwapPresentMode` (src/main.cpp lines 473-482): `eMailbox`
when `any_of` the candidates equals `eMailbox`, else `eFifo`. -/
def chooseSwapPresentMode (availablePresentModes : List PresentModeKHR) :
    PresentModeKHR :=
  if availablePresentModes.any (fun value => PresentModeKHR.eMailbox == value)
  then PresentModeKHR.eMailbox
  else PresentModeKHR.eFifo

/-- A `vk::Extent2D`. -/
structure Extent2D where
  width : Nat
  height : Nat
deriving DecidableEq, Repr

/-- `std::clamp(v, lo, hi)`, transcribed literally:
`v < lo ? lo : (hi < v ? hi : v)`. -/
def stdClamp (v lo hi : Nat) : Nat :=
  if v < lo then lo else if hi < v then hi else v

/-- The fields of `vk::SurfaceCapabilitiesKHR` that the source
reads: image-count bounds and the current / min / max extents. -/
structure SurfaceCapabilitiesKHR where
  minImageCount : Nat
  maxImageCount : Nat
  currentExtent : Extent2D
  minImageExtent : Extent2D
  maxImageExtent : Extent2D
deriving DecidableEq, Repr

/-- `chooseSwapExtent` (src/main.cpp lines 484-497): if
`currentExtent.width` differs from `UINT32_MAX` the whole
`currentExtent` is returned; otherwise the window framebuffer size
(here passed in as `fbWidth`, `fbHeight`, the out-parameters of
`glfwGetFramebufferSize`) is clamped per dimension into
[`minImageExtent`, `maxImageExtent`]. -/
def chooseSwapExtent (capabilities : SurfaceCapabilitiesKHR)
    (fbWidth fbHeight : Nat) : Extent2D :=
  if capabilities.currentExtent.width ≠ UINT32_MAX then
    capabilities.currentExtent
  else
    { width := stdClamp fbWidth capabilities.minImageExtent.width
        capabilities.maxImageExtent.width,
      height := stdClamp fbHeight capabilities.minImageExtent.height
        capabilities.maxImageExtent.height }

/-- The swapchain image-count computation inline in `createSwapChain`
(src/main.cpp lines 437-441): `max(3u, minImageCount)`, clamped down
to `maxImageCount` when that is nonzero and exceeded. -/
def negotiateImageCount (capabilities : SurfaceCapabilitiesKHR) : Nat :=
  let minImageCount := max 3 capabilities.minImageCount
  if capabilities.maxImageCount > 0 ∧ minImageCount > capabilities.maxImageCount
  then capabilities.maxImageCount
  else minImageCount

/-! ### Theorems -/

/-- C1: the claim states that when the first graphics-capable family
does not support presentation but some family supports both roles,
`selectQueueFamilies` returns that family's index for both roles.  On
the list `[{graphics, no present}, {graphics, present}]` the claim
expects `(1, 1)`; the code instead returns `(0, 4294967295)`: the
`~0` present-index sentinel never compares equal to the family count,
so the both-roles rescan is never entered and the raw sentinel is
used as the present queue index. -/
theorem selectQueueFamilies_skips_both_roles_rescan :
    selectQueueFamilies [⟨true, false⟩, ⟨true, true⟩] =
      Except.ok (0, 4294967295) := by
  rfl

/-- C2: the claim states that with disjoint graphics-only and
present-only families, `selectQueueFamilies` returns the two distinct
first indices.  On `[{graphics, no present}, {no graphics, present}]`
the claim expects `(0, 1)`; the code instead returns
`(0, 4294967295)`: the `~0` sentinel bypasses the present-only rescan
as well. -/
theorem selectQueueFamilies_skips_present_rescan :
    selectQueueFamilies [⟨true, false⟩, ⟨false, true⟩] =
      Except.ok (0, 4294967295) := by
  rfl

/-- C3: the claim states that `selectQueueFamilies` fails with the
"could not find a queue for graphics or present" error both when no
family supports graphics and when no family supports presentation.
The first half holds (first conjunct); the second half fails: on the
single family `{graphics, no present}` no family supports
presentation, yet the code returns `(0, 4294967295)` instead of
throwing, because the `~0` sentinel is never equal to the family
count in the final error check (second conjunct). -/
theorem selectQueueFamilies_missing_present_not_detected :
    selectQueueFamilies [⟨false, true⟩] =
      Except.error "could not find a queue for graphics or present -> Terminating"
    ∧ selectQueueFamilies [⟨true, false⟩] = Except.ok (0, 4294967295) := by
  exact ⟨rfl, rfl⟩

/-- `List.find?` returns the marked element when everything before it
fails the predicate and it satisfies the predicate. -/
theorem find?_append_cons_of_not {α : Type} (p : α → Bool) (pre post : List α)
    (d : α) (hd : p d = true) (hpre : ∀ x ∈ pre, p x = false) :
    (pre ++ d :: post).find? p = some d := by
  induction pre with
  | nil => simp [List.find?, hd]
  | cons x xs ih =>
    have hx : p x = false := hpre x (by simp)
    simpa [List.find?, hx] using ih (fun y hy => hpre y (by simp [hy]))

/-- C4: for every enumerated device list containing a qualifying
device, `pickPhysicalDevice` returns the first qualifying device in
enumeration order (here: the device `d` after a prefix `pre` of
non-qualifying devices), never a later one. -/
theorem pickPhysicalDevice_first_qualifying (required : List String)
    (pre post : List DeviceCandidate) (d : DeviceCandidate)
    (hd : isDeviceSuitable required d = true)
    (hpre : ∀ x ∈ pre, isDeviceSuitable required x = false) :
    pickPhysicalDevice required (pre ++ d :: post) = Except.ok d := by
  unfold pickPhysicalDevice
  rw [find?_append_cons_of_not _ _ _ _ hd hpre]

/-- A device qualifying under the source's fixed required-extension
list: Vulkan 1.3, one graphics+present family, the four required
extensions, both feature bits. -/
def qualifyingDevice : DeviceCandidate :=
  { apiVersion := VK_API_VERSION_1_3
    queueFamilies := [⟨true, true⟩]
    extensions := ["VK_KHR_swapchain", "VK_KHR_spirv_1_4",
                   "VK_KHR_synchronization2", "VK_KHR_create_renderpass2"]
    dynamicRendering := true
    extendedDynamicState := true }

/-- A device failing the qualification predicate (extensions and
features missing, API version below 1.3). -/
def unqualifiedDevice : DeviceCandidate :=
  { apiVersion := 0
    queueFamilies := [⟨true, true⟩]
    extensions := []
    dynamicRendering := false
    extendedDynamicState := false }

/-- Witness for C4: on `[unqualifiedDevice, qualifyingDevice]` the
first device fails the predicate, the second passes it, and
`pickPhysicalDevice` returns the second. -/
theorem pickPhysicalDevice_first_qualifying_witness :
    isDeviceSuitable requiredDeviceExtension qualifyingDevice = true
    ∧ isDeviceSuitable requiredDeviceExtension unqualifiedDevice = false
    ∧ pickPhysicalDevice requiredDeviceExtension
        [unqualifiedDevice, qualifyingDevice] = Except.ok qualifyingDevice :=
  ⟨by decide, by decide,
   pickPhysicalDevice_first_qualifying requiredDeviceExtension
     [unqualifiedDevice] [] qualifyingDevice (by decide)
     (by intro x hx; rw [List.mem_singleton] at hx; rw [hx]; decide)⟩

/-- C5: for every enumerated device list in which no device satisfies
the qualification predicate, `pickPhysicalDevice` fails with the
"failed to find a suitable GPU!" error and returns no device. -/
theorem pickPhysicalDevice_none_qualifying (required : List String)
    (devices : List DeviceCandidate)
    (h : ∀ d ∈ devices, isDeviceSuitable required d = false) :
    pickPhysicalDevice required devices =
      Except.error "failed to find a suitable GPU!" := by
  unfold pickPhysicalDevice
  have hnone : devices.find? (isDeviceSuitable required) = none := by
    rw [List.find?_eq_none]
    intro x hx
    simp [h x hx]
  rw [hnone]

/-- Witness for C5: on `[unqualifiedDevice]` nothing qualifies and
the error is raised. -/
theorem pickPhysicalDevice_none_qualifying_witness :
    isDeviceSuitable requiredDeviceExtension unqualifiedDevice = false
    ∧ pickPhysicalDevice requiredDeviceExtension [unqualifiedDevice] =
        Except.error "failed to find a suitable GPU!" :=
  ⟨by decide,
   pickPhysicalDevice_none_qualifying requiredDeviceExtension [unqualifiedDevice]
     (by intro d hd; rw [List.mem_singleton] at hd; rw [hd]; decide)⟩

/-- Counterexample for C6: the claim states that when the preferred
pair is absent the first entry is returned unmodified, including its
color space.  On the single candidate
(`eR8G8B8A8Unorm`, `eExtendedSrgbLinearEXT`) the negotiated pair is
not that entry: `createSwapChain` hardcodes the color space to
`eSrgbNonlinear`, so the result is
(`eR8G8B8A8Unorm`, `eSrgbNonlinear`). -/
theorem negotiateSurfaceFormatPair_drops_colorSpace :
    negotiateSurfaceFormatPair [⟨eR8G8B8A8Unorm, eExtendedSrgbLinearEXT⟩] ≠
      ⟨eR8G8B8A8Unorm, eExtendedSrgbLinearEXT⟩ := by
  decide

/-- The preference predicate of `chooseSwapSurfaceFormat` holds
exactly at the preferred pair. -/
theorem surfaceFormat_pref_eq (f : SurfaceFormatKHR) :
    (f.format == eB8G8R8A8Srgb && f.colorSpace == eSrgbNonlinear) = true ↔
      f = ⟨eB8G8R8A8Srgb, eSrgbNonlinear⟩ := by
  cases f with
  | mk fmt cs =>
    simp [eB8G8R8A8Srgb, eSrgbNonlinear]

/-- `chooseSwapSurfaceFormat`'s search returns the preferred pair iff
it is a member of the candidate list. -/
theorem surfaceFormat_find?_eq (l : List SurfaceFormatKHR) :
    l.find? (fun f => f.format == eB8G8R8A8Srgb && f.colorSpace == eSrgbNonlinear) =
      if (⟨eB8G8R8A8Srgb, eSrgbNonlinear⟩ : SurfaceFormatKHR) ∈ l
      then some ⟨eB8G8R8A8Srgb, eSrgbNonlinear⟩
      else none := by
  induction l with
  | nil => simp
  | cons x xs ih =>
    by_cases hx : x = ⟨eB8G8R8A8Srgb, eSrgbNonlinear⟩
    · subst hx
      simp [List.find?, eB8G8R8A8Srgb, eSrgbNonlinear]
    · have hpx : (x.format == eB8G8R8A8Srgb && x.colorSpace == eSrgbNonlinear) = false := by
        rw [Bool.eq_false_iff]
        intro hc
        exact hx ((surfaceFormat_pref_eq x).mp hc)
      rw [List.find?_cons_of_neg _ (by simp [hpx]), ih]
      have hxc : ({ format := eB8G8R8A8Srgb, colorSpace := eSrgbNonlinear } :
          SurfaceFormatKHR) ≠ x := fun hc => hx hc.symm
      simp [List.mem_cons, hxc]

/-- C6 amended: for every non-empty candidate list, the negotiated
(format, colorSpace) pair is (`eB8G8R8A8Srgb`, `eSrgbNonlinear`) when
that exact pair appears anywhere in the list; otherwise it pairs the
FIRST entry's format with the hardcoded `eSrgbNonlinear` color space —
the first entry's own color space is not propagated. -/
theorem negotiateSurfaceFormatPair_spec (availableFormats : List SurfaceFormatKHR)
    (_h : availableFormats ≠ []) :
    negotiateSurfaceFormatPair availableFormats =
      if (⟨eB8G8R8A8Srgb, eSrgbNonlinear⟩ : SurfaceFormatKHR) ∈ availableFormats
      then ⟨eB8G8R8A8Srgb, eSrgbNonlinear⟩
      else ⟨(availableFormats.getD 0 default).format, eSrgbNonlinear⟩ := by
  unfold negotiateSurfaceFormatPair chooseSwapSurfaceFormat
  rw [surfaceFormat_find?_eq]
  by_cases hm : (⟨eB8G8R8A8Srgb, eSrgbNonlinear⟩ : SurfaceFormatKHR) ∈ availableFormats
  · simp [hm]
  · simp [hm]

/-- Witness for C6's amended claim: a non-empty list without the
preferred pair yields the first entry's format with the hardcoded
non-linear color space. -/
theorem negotiateSurfaceFormatPair_spec_witness :
    ([(⟨eR8G8B8A8Unorm, eExtendedSrgbLinearEXT⟩ : SurfaceFormatKHR)] ≠ [])
    ∧ negotiateSurfaceFormatPair [⟨eR8G8B8A8Unorm, eExtendedSrgbLinearEXT⟩] =
        if (⟨eB8G8R8A8Srgb, eSrgbNonlinear⟩ : SurfaceFormatKHR) ∈
            [(⟨eR8G8B8A8Unorm, eExtendedSrgbLinearEXT⟩ : SurfaceFormatKHR)]
        then ⟨eB8G8R8A8Srgb, eSrgbNonlinear⟩
        else ⟨(([(⟨eR8G8B8A8Unorm, eExtendedSrgbLinearEXT⟩ : SurfaceFormatKHR)]).getD
                 0 default).format, eSrgbNonlinear⟩ :=
  ⟨by decide, negotiateSurfaceFormatPair_spec _ (by decide)⟩

/-- C7: `negotiateImageCount` returns `max 3 minImageCount` when
`maxImageCount` is zero or at least `max 3 minImageCount`, and
returns `maxImageCount` when it is nonzero and smaller; in
particular min=2,max=0 gives 3; min=2,max=3 gives 3; min=5,max=6
gives 5. -/
theorem negotiateImageCount_spec (capabilities : SurfaceCapabilitiesKHR) :
    (negotiateImageCount capabilities =
      if capabilities.maxImageCount ≠ 0 ∧
          capabilities.maxImageCount < max 3 capabilities.minImageCount
      then capabilities.maxImageCount
      else max 3 capabilities.minImageCount)
    ∧ negotiateImageCount ⟨2, 0, ⟨0, 0⟩, ⟨0, 0⟩, ⟨0, 0⟩⟩ = 3
    ∧ negotiateImageCount ⟨2, 3, ⟨0, 0⟩, ⟨0, 0⟩, ⟨0, 0⟩⟩ = 3
    ∧ negotiateImageCount ⟨5, 6, ⟨0, 0⟩, ⟨0, 0⟩, ⟨0, 0⟩⟩ = 5 := by
  refine ⟨?_, by decide, by decide, by decide⟩
  unfold negotiateImageCount
  rcases capabilities with ⟨mn, mx, ce, mine, maxe⟩
  simp only
  split
  · next hcond =>
    rw [if_pos ⟨Nat.pos_iff_ne_zero.mp hcond.1, hcond.2⟩]
  · next hcond =>
    rw [if_neg]
    intro ⟨h1, h2⟩
    exact hcond ⟨Nat.pos_iff_ne_zero.mpr h1, h2⟩

/-- C8: `chooseSwapExtent` returns the surface-reported
`currentExtent` verbatim whenever the surface reports a definite
extent (neither dimension is the `UINT32_MAX` sentinel), regardless
of the framebuffer size; when the extent is undefined (both
dimensions are the sentinel, as the Vulkan surface contract reports
it) the framebuffer size is clamped per dimension into
[`minImageExtent`, `maxImageExtent`]; in particular framebuffer
1000x10 with min 100x100 and max 900x900 yields 900x100. -/
theorem chooseSwapExtent_spec (capabilities : SurfaceCapabilitiesKHR)
    (fbWidth fbHeight : Nat) :
    (capabilities.currentExtent.width ≠ UINT32_MAX ∧
        capabilities.currentExtent.height ≠ UINT32_MAX →
      chooseSwapExtent capabilities fbWidth fbHeight = capabilities.currentExtent)
    ∧ (capabilities.currentExtent.width = UINT32_MAX ∧
        capabilities.currentExtent.height = UINT32_MAX →
      chooseSwapExtent capabilities fbWidth fbHeight =
        ⟨stdClamp fbWidth capabilities.minImageExtent.width
           capabilities.maxImageExtent.width,
         stdClamp fbHeight capabilities.minImageExtent.height
           capabilities.maxImageExtent.height⟩)
    ∧ chooseSwapExtent ⟨0, 0, ⟨UINT32_MAX, UINT32_MAX⟩, ⟨100, 100⟩, ⟨900, 900⟩⟩
        1000 10 = ⟨900, 100⟩ := by
  refine ⟨fun h => ?_, fun h => ?_, by decide⟩
  · unfold chooseSwapExtent
    rw [if_pos h.1]
  · unfold chooseSwapExtent
    rw [if_neg (fun hc => hc h.1)]

/-- Witness for C8: a definite 800x600 extent is returned verbatim
with framebuffer 1000x10, and the doubly-undefined extent yields the
per-dimension clamp of the framebuffer size. -/
theorem chooseSwapExtent_spec_witness :
    chooseSwapExtent ⟨0, 0, ⟨800, 600⟩, ⟨100, 100⟩, ⟨900, 900⟩⟩ 1000 10 = ⟨800, 600⟩
    ∧ chooseSwapExtent ⟨0, 0, ⟨UINT32_MAX, UINT32_MAX⟩, ⟨100, 100⟩, ⟨900, 900⟩⟩
        1000 10 = ⟨stdClamp 1000 100 900, stdClamp 10 100 900⟩ :=
  ⟨(chooseSwapExtent_spec ⟨0, 0, ⟨800, 600⟩, ⟨100, 100⟩, ⟨900, 900⟩⟩ 1000 10).1
     (by decide),
   (chooseSwapExtent_spec ⟨0, 0, ⟨UINT32_MAX, UINT32_MAX⟩, ⟨100, 100⟩, ⟨900, 900⟩⟩
      1000 10).2.1 (by decide)⟩

/-- C9: `chooseSwapPresentMode` returns `eMailbox` iff `eMailbox`
appears anywhere in the candidate list and `eFifo` otherwise, and it
never returns any other mode. -/
theorem chooseSwapPresentMode_spec (availablePresentModes : List PresentModeKHR) :
    chooseSwapPresentMode availablePresentModes =
      (if PresentModeKHR.eMailbox ∈ availablePresentModes
       then PresentModeKHR.eMailbox
       else PresentModeKHR.eFifo)
    ∧ (chooseSwapPresentMode availablePresentModes = PresentModeKHR.eMailbox
       ∨ chooseSwapPresentMode availablePresentModes = PresentModeKHR.eFifo) := by
  have hmain : chooseSwapPresentMode availablePresentModes =
      (if PresentModeKHR.eMailbox ∈ availablePresentModes
       then PresentModeKHR.eMailbox
       else PresentModeKHR.eFifo) := by
    unfold chooseSwapPresentMode
    by_cases hm : PresentModeKHR.eMailbox ∈ availablePresentModes
    · rw [if_pos ?_, if_pos hm]
      rw [List.any_eq_true]
      exact ⟨_, hm, by simp⟩
    · rw [if_neg ?_, if_neg hm]
      rw [List.any_eq_true]
      rintro ⟨x, hx, hbx⟩
      exact hm (by simpa using (beq_iff_eq.mp hbx ▸ hx))
  refine ⟨hmain, ?_⟩
  rw [hmain]
  by_cases hm : PresentModeKHR.eMailbox ∈ availablePresentModes
  · exact Or.inl (if_pos hm)
  · exact Or.inr (if_neg hm)

/-- C10: the definite-extent decision of `chooseSwapExtent` inspects
only the width: whenever `currentExtent.width` differs from the
`UINT32_MAX` sentinel the whole `currentExtent` is returned verbatim
— including its height, even when the height equals the sentinel —
and the framebuffer clamp happens exactly when the width equals the
sentinel. -/
theorem chooseSwapExtent_width_only (capabilities : SurfaceCapabilitiesKHR)
    (fbWidth fbHeight : Nat) :
    (capabilities.currentExtent.width ≠ UINT32_MAX →
      chooseSwapExtent capabilities fbWidth fbHeight = capabilities.currentExtent)
    ∧ (capabilities.currentExtent.width = UINT32_MAX →
      chooseSwapExtent capabilities fbWidth fbHeight =
        ⟨stdClamp fbWidth capabilities.minImageExtent.width
           capabilities.maxImageExtent.width,
         stdClamp fbHeight capabilities.minImageExtent.height
           capabilities.maxImageExtent.height⟩) := by
  constructor
  · intro h
    unfold chooseSwapExtent
    rw [if_pos h]
  · intro h
    unfold chooseSwapExtent
    rw [if_neg (fun hc => hc h)]

/-- Witness for C10: with width 800 and height equal to the sentinel
the extent is returned verbatim, sentinel height included; with width
equal to the sentinel the framebuffer clamp applies. -/
theorem chooseSwapExtent_width_only_witness :
    chooseSwapExtent ⟨0, 0, ⟨800, UINT32_MAX⟩, ⟨100, 100⟩, ⟨900, 900⟩⟩ 50 50 =
      ⟨800, UINT32_MAX⟩
    ∧ chooseSwapExtent ⟨0, 0, ⟨UINT32_MAX, 600⟩, ⟨100, 100⟩, ⟨900, 900⟩⟩ 50 50 =
        ⟨stdClamp 50 100 900, stdClamp 50 100 900⟩ :=
  ⟨(chooseSwapExtent_width_only ⟨0, 0, ⟨800, UINT32_MAX⟩, ⟨100, 100⟩, ⟨900, 900⟩⟩
      50 50).1 (by decide),
   (chooseSwapExtent_width_only ⟨0, 0, ⟨UINT32_MAX, 600⟩, ⟨100, 100⟩, ⟨900, 900⟩⟩
      50 50).2 (by decide)⟩
